import Mathlib

/-!
Shallow embedding of the scrape core of the prometheus oracle exporter
(src/main.go, src/testconn.go): the custom query engine
(`ScrapeCustomQueries`), the metric reset (`resetAllMetrics`), the
post-connect display-field discovery (`Connect`), the configuration
loader (`loadConfig`), the runtime timeout setter (`/setTimeout`
handler) and the connectivity-probe output parser (`execConn`).
Strings are modelled by Lean strings, Go float64 cell values by exact
rationals, and the dynamic type of a scanned SQL cell by the `Value`
inductive.  Fallible operations return `Except`/`Option`; a panic of
the prometheus client library (wrong label cardinality) is modelled as
an explicit outcome constructor.
-/

namespace OracleExporter

/-- Dynamic type of one scanned SQL result cell, as left in the
`vals` slice of `ScrapeCustomQueries` by `rows.Scan`: a Go string, a
Go float64 (modelled as an exact rational), or some other dynamic type
(an integer, or a nil interface). -/
inductive Value where
  | vstr (s : String) : Value
  | vfloat (x : ℚ) : Value
  | vint (n : Int) : Value
  | vnull : Value
deriving DecidableEq, Repr

/-- Name normalization `cleanName` of main.go: replace spaces by
underscores, delete parentheses and forward slashes, lowercase.  All
four replaced patterns are single characters, so the chain of
`strings.Replace(s, pat, rep, -1)` calls is a per-character map and
filter; `strings.ToLower` is modelled on ASCII, which is the alphabet
of every column and label name the exporter handles. -/
def cleanName (s : String) : String :=
  let s1 := s.toList.map (fun c => if c = ' ' then '_' else c)
  let s2 := s1.filter (fun c => c != '(' && c != ')' && c != '/')
  String.mk (s2.map Char.toLower)

/-- Index of the first result column whose cleaned name equals the
cleaned requested name: the linear scans with `break` used for both
metric and label resolution in `ScrapeCustomQueries`. -/
def findColIdx (cols : List String) (name : String) : Option Nat :=
  cols.findIdx? (fun col => cleanName name == cleanName col)

/-- Scale a rational by 10 until it is an integer, returning the
integer together with the number of steps, or `none` when the fuel
runs out.  The scaling step builds the product with `mkRat` on the
numerator, which is the normalized value of `q * 10`.  On a float64
value the denominator is a power of two, so at most 1074 steps are
ever needed and fuel 1100 never runs out. -/
def decScale (q : ℚ) (fuel : Nat) : Option (Int × Nat) :=
  match fuel with
  | 0 => none
  | fuel + 1 =>
    if q.den = 1 then some (q.num, 0)
    else (decScale (mkRat (q.num * 10) q.den) fuel).map (fun p => (p.1, p.2 + 1))

/-- Rendering `strconv.FormatFloat(b, 'e', -1, 64)` of main.go on a
non-integral value: normalized scientific notation, shortest digit
string, exponent sign and at least two exponent digits.  Modelled by
the exact decimal digits of the value, which is the shortest
round-trip form on the decimal-exact float64 values this development
evaluates it on. -/
def formatFloatE (q : ℚ) : String :=
  match decScale q 1100 with
  | none => ""
  | some (n, k) =>
    let sign := if n < 0 then "-" else ""
    let digits := n.natAbs.repr
    let pointExp : Int := (digits.length : Int) - 1 - (k : Int)
    let mantissa :=
      if digits.length ≤ 1 then digits
      else digits.take 1 ++ "." ++ digits.drop 1
    let esign := if pointExp < 0 then "-" else "+"
    let eabs := pointExp.natAbs
    let edigits := if eabs < 10 then "0" ++ eabs.repr else eabs.repr
    sign ++ mantissa ++ "e" ++ esign ++ edigits

/-- Label value coercion of `ScrapeCustomQueries` (main.go lines
335-347): a string cell is used verbatim; a float64 cell that is
integral renders as `strconv.Itoa(int(b))`; a non-integral float64
cell renders as `strconv.FormatFloat(b, 'e', -1, 64)`; any other cell
type falls into the final `else`, whose `fmt.Sprintf("%v", b)`
formats the variable `b` — the zero-valued float64 left by the failed
type assertion `vals[i].(float64)` — and therefore always yields the
string "0", never a conversion of the cell itself. -/
def labelCoerce (v : Value) : String :=
  match v with
  | .vstr a => a
  | .vfloat b => if b.den = 1 then b.num.repr else formatFloatE b
  | _ => "0"

/-- One custom query spec from the configuration file (`Query` in the
config part of the source). -/
structure Query where
  Sql : String
  Name : String
  Metrics : List String
  Labels : List String
  Help : String
deriving Repr

/-- Result set of one executed SQL query: the column names from
`rows.Columns()` and the scanned rows. -/
structure QueryResult where
  cols : List String
  rows : List (List Value)
deriving Repr

/-- One emitted metric series: the custom family (keyed by the query
name), the prometheus label pairs in assignment order, and the float
value passed to `Set`. -/
structure Series where
  family : String
  labels : List (String × String)
  value : ℚ
deriving DecidableEq, Repr

/-- The fixed labels assigned to `promLabels` before the label loop of
`ScrapeCustomQueries`, followed by the resolved custom labels. -/
def promLabelsFor (database instName metric : String) (rownum : Nat)
    (custom : List (String × String)) : List (String × String) :=
  ("database", database) :: ("dbinstance", instName) :: ("metric", metric)
    :: ("rownum", rownum.repr) :: custom

/-- The label loop of `ScrapeCustomQueries`: resolve each declared
label in order against the result columns; the first label with no
matching column aborts with that label's name (the code logs the
warning and executes `break QueryLoop`); otherwise produce the
(cleaned-name, coerced-value) pairs in declared order. -/
def resolveLabels (cols : List String) (vals : List Value) :
    List String → Except String (List (String × String))
  | [] => .ok []
  | l :: ls =>
    match findColIdx cols l with
    | none => .error l
    | some i =>
      match resolveLabels cols vals ls with
      | .error l2 => .error l2
      | .ok rest => .ok ((cleanName l, labelCoerce (vals.getD i .vnull)) :: rest)

/-- The `MetricLoop` of `ScrapeCustomQueries` over one scanned row:
for each declared metric name, a missing column silently skips that
metric (`continue MetricLoop`); a matched column whose cell is not a
float64 silently emits nothing; a float64 cell resolves the labels,
where a missing label warns and aborts the whole query
(`break QueryLoop`, second component `true`, the warning recorded as
the (query name, label) pair), and otherwise emits one series.
Returns the series emitted for this row, the abort flag, and the
warnings logged. -/
def processMetricsRow (qname database instName : String) (labels : List String)
    (cols : List String) (vals : List Value) (rownum : Nat) :
    List String → List Series × Bool × List (String × String)
  | [] => ([], false, [])
  | m :: ms =>
    match findColIdx cols m with
    | none => processMetricsRow qname database instName labels cols vals rownum ms
    | some i =>
      match vals.getD i .vnull with
      | .vfloat v =>
        match resolveLabels cols vals labels with
        | .error l => ([], true, [(qname, l)])
        | .ok custom =>
          let rest := processMetricsRow qname database instName labels cols vals rownum ms
          (⟨qname, promLabelsFor database instName m rownum custom, v⟩ :: rest.1, rest.2)
      | _ => processMetricsRow qname database instName labels cols vals rownum ms

/-- The `QueryLoop` of `ScrapeCustomQueries` over the scanned rows,
with `rownum` starting at 1 and incremented per row: an aborting row
ends the query keeping whatever this row emitted before the break;
otherwise the row's series are followed by the remaining rows'. -/
def processRows (qname database instName : String)
    (metrics labels : List String) (cols : List String) :
    List (List Value) → Nat → List Series × List (String × String)
  | [], _ => ([], [])
  | vals :: rest, rownum =>
    let r := processMetricsRow qname database instName labels cols vals rownum metrics
    if r.2.1 then (r.1, r.2.2)
    else
      let rr := processRows qname database instName metrics labels cols rest (rownum + 1)
      (r.1 ++ rr.1, r.2.2 ++ rr.2)

/-- The query loop of `ScrapeCustomQueries` over the declared specs:
`QueryContext` failing makes the function `return`, so an execution
error stops the loop — the remaining specs are never executed and
only the series emitted by the specs already processed survive. -/
def scrapeQueriesLoop (dbF : String → Except Unit QueryResult)
    (database instName : String) : List Query → List Series × List (String × String)
  | [] => ([], [])
  | q :: qs =>
    match dbF q.Sql with
    | .error _ => ([], [])
    | .ok res =>
      let r := processRows q.Name database instName q.Metrics q.Labels res.cols res.rows 1
      let rest := scrapeQueriesLoop dbF database instName qs
      (r.1 ++ rest.1, r.2 ++ rest.2)

/-- One target configuration (struct `Config` of the source): the
connection string, display database and instance, the declared custom
query specs, and the live handle — `none` models a nil `conn.db`, and
a connected handle is modelled as the function taking a SQL text to
its execution outcome. -/
structure Config where
  Connection : String
  Database : String
  Instance : String
  Queries : List Query
  db : Option (String → Except Unit QueryResult)

/-- `ScrapeCustomQueries` for one target: nothing happens on a nil
handle, otherwise the query loop runs; results are the emitted series
and the logged warnings. -/
def scrapeCustomQueries (conn : Config) : List Series × List (String × String) :=
  match conn.db with
  | none => ([], [])
  | some dbF => scrapeQueriesLoop dbF conn.Database conn.Instance conn.Queries

/-- State of one prometheus GaugeVec: the series it currently holds,
each a list of label values with the gauge value. -/
abbrev GaugeVec : Type := List (List String × ℚ)

/-- The metric fields of the `Exporter` struct: the plain gauges and
the counter that survive a scrape (`duration`, `error`,
`totalScrapes`, `scrapeErrors`) and every GaugeVec, including the
per-phase timing vector `used_times` and the custom families. -/
structure Exporter where
  duration : ℚ
  error : ℚ
  totalScrapes : Nat
  scrapeErrors : List (String × ℚ)
  session : GaugeVec
  sysstat : GaugeVec
  waitclass : GaugeVec
  sysmetric : GaugeVec
  interconnect : GaugeVec
  uptime : GaugeVec
  up : GaugeVec
  tablespace : GaugeVec
  recovery : GaugeVec
  redo : GaugeVec
  cache : GaugeVec
  alertlog : GaugeVec
  alertdate : GaugeVec
  services : GaugeVec
  parameter : GaugeVec
  asmspace : GaugeVec
  tablerows : GaugeVec
  tablebytes : GaugeVec
  indexbytes : GaugeVec
  lobbytes : GaugeVec
  custom : List (String × GaugeVec)
  used_times : GaugeVec

/-- `resetAllMetrics` of main.go, run at the top of `Connect` under
the config lock: `Reset()` empties exactly the listed GaugeVecs —
`used_times` first, then `up`, the built-in families, and every
custom family — and touches none of `duration`, `error`,
`totalScrapes`, `scrapeErrors`. -/
def resetAllMetrics (e : Exporter) : Exporter :=
  { e with
    used_times := []
    up := []
    session := []
    sysstat := []
    waitclass := []
    sysmetric := []
    interconnect := []
    tablespace := []
    recovery := []
    redo := []
    cache := []
    uptime := []
    alertlog := []
    alertdate := []
    services := []
    parameter := []
    asmspace := []
    tablerows := []
    tablebytes := []
    indexbytes := []
    lobbytes := []
    custom := e.custom.map (fun p => (p.1, ([] : GaugeVec))) }

/-- Display-field discovery inside `Connect` (main.go lines 986-989),
run after the identity query succeeds with discovered names `dbname`
and `inname`: when the configured `Database` or the configured
`Instance` is empty, both fields are overwritten with the discovered
names; otherwise both keep their configured values. -/
def connectDiscover (database instName dbname inname : String) : String × String :=
  if database.length = 0 ∨ instName.length = 0 then (dbname, inname)
  else (database, instName)

/-- Outcome of a call to `loadConfig`: either the process was
terminated (logrus `log.Fatalf` calls os.Exit(1)), or the function
returned the given boolean with the given active configuration. -/
inductive LoadOutcome where
  | terminated : LoadOutcome
  | returned (ok : Bool) (active : List Config) : LoadOutcome

/-- `loadConfig` of the configuration part of the source, over the
current active configuration, the result of reading the config file
(`none` models a read error) and the YAML parser (`none` models a
parse error): a read error hits `log.Fatalf`, which exits the process
before the `return false` below it; a parse error likewise; on
success the new configuration is swapped in and `true` returned. -/
def loadConfig (current : List Config) (readResult : Option String)
    (parse : String → Option (List Config)) : LoadOutcome :=
  match readResult with
  | none => .terminated
  | some content =>
    match parse content with
    | none => .terminated
    | some c =>
      let _ := current
      .returned true c

/-- The `/getTimeout` handler: report the stored timeout. -/
def getTimeout (current : Int) : Int := current

/-- The `/setTimeout` handler of main.go applied to an already parsed
integer `t`: `t >= 15 || t <= 1` answers "bad timeout" leaving the
stored value alone, otherwise `t` becomes the stored timeout.
Returns the stored timeout after the call and whether the new value
was accepted. -/
def setTimeout (current t : Int) : Int × Bool :=
  if 15 ≤ t ∨ t ≤ 1 then (current, false) else (t, true)

/-- Whether `sub` occurs as a contiguous sublist of `hay`:
`strings.Contains` on the underlying characters. -/
def containsSub (hay sub : List Char) : Bool :=
  match hay with
  | [] => sub.isEmpty
  | _ :: t => sub.isPrefixOf hay || containsSub t sub

/-- Replace the first occurrence of `pat` in the list by `rep`:
`strings.Replace(s, pat, rep, 1)` on the underlying characters. -/
def replaceFirst (pat rep : List Char) : List Char → List Char
  | [] => []
  | c :: t =>
    if pat.isPrefixOf (c :: t) then rep ++ (c :: t).drop pat.length
    else c :: replaceFirst pat rep t

/-- Split a character list on a separator character, never dropping
empty fields: `strings.Split` for a one-character separator. -/
def splitCharAux (sep : Char) : List Char → List Char → List String
  | [], acc => [String.mk acc.reverse]
  | c :: t, acc =>
    if c = sep then String.mk acc.reverse :: splitCharAux sep t []
    else splitCharAux sep t (c :: acc)

/-- Split a string on a separator character (`strings.Split`). -/
def splitChar (sep : Char) (s : String) : List String :=
  splitCharAux sep s.toList []

/-- Digits of a nonempty all-digit character list, or `none`. -/
def parseDigits (cs : List Char) : Option Nat :=
  if cs.isEmpty then none
  else if cs.all Char.isDigit then
    some (cs.foldl (fun a c => a * 10 + (c.toNat - 48)) 0)
  else none

/-- Value of an all-digit character list. -/
def digitsVal (cs : List Char) : Nat :=
  cs.foldl (fun a c => a * 10 + (c.toNat - 48)) 0

/-- Decimal mantissa: digits, optionally followed by a point and more
digits, with at least one digit overall.  Returns the concatenated
digit value together with the number of fractional digits, so the
mantissa denotes `value / 10 ^ fracLen`. -/
def parseMantissa (cs : List Char) : Option (Nat × Nat) :=
  let ip := cs.takeWhile Char.isDigit
  let rest := cs.dropWhile Char.isDigit
  match rest with
  | [] => if ip.isEmpty then none else some (digitsVal ip, 0)
  | '.' :: frac =>
    if frac.all Char.isDigit && (!ip.isEmpty || !frac.isEmpty) then
      some (digitsVal ip * 10 ^ frac.length + digitsVal frac, frac.length)
    else none
  | _ => none

/-- Signed decimal exponent after the `e` of a float literal. -/
def parseExpPart (cs : List Char) : Option Int :=
  match cs with
  | '+' :: ds => (parseDigits ds).map Int.ofNat
  | '-' :: ds => (parseDigits ds).map (fun n => -(n : Int))
  | ds => (parseDigits ds).map Int.ofNat

/-- `strconv.ParseFloat(s, 64)` of testconn.go, modelled on finite
decimal literals (optional sign, decimal mantissa, optional decimal
exponent), with the parsed value kept exact as a rational built in
normalized form with `mkRat`; a string outside this grammar is a
parse error (`none`). -/
def parseFloat (s : String) : Option ℚ :=
  let cs := s.toList
  let signAndRest : Int × List Char :=
    match cs with
    | '+' :: r => (1, r)
    | '-' :: r => (-1, r)
    | r => (1, r)
  let mant := signAndRest.2.takeWhile (fun c => c != 'e' && c != 'E')
  let rest := signAndRest.2.dropWhile (fun c => c != 'e' && c != 'E')
  match rest with
  | [] => (parseMantissa mant).map
      (fun m => mkRat (signAndRest.1 * (m.1 : Int)) (10 ^ m.2))
  | _ :: ecs =>
    match parseMantissa mant, parseExpPart ecs with
    | some m, some ex =>
      if 0 ≤ ex then
        some (mkRat (signAndRest.1 * (m.1 : Int) * 10 ^ ex.toNat) (10 ^ m.2))
      else
        some (mkRat (signAndRest.1 * (m.1 : Int)) (10 ^ m.2 * 10 ^ (-ex).toNat))
    | _, _ => none

/-- `splitConnStr` of main.go: split the connection string at "@",
then "/", then "?" to recover the listener address and the service
name, with the placeholders "??" and "???" when the shape does not
match. -/
def splitConnStr (str : String) : String × String :=
  let sts := splitChar '@' str
  if 2 ≤ sts.length then
    let ips := splitChar '/' (sts.getD 1 "")
    if 2 ≤ ips.length then
      let ipport := ips.getD 0 ""
      let dbs := splitChar '?' (ips.getD 1 "")
      if 1 ≤ dbs.length then (ipport, dbs.getD 0 "") else (ipport, "???")
    else ("??", "???")
  else ("??", "???")

/-- Outcome of the probe-output parsing loop of `execConn`: the
`Set` calls made on `used_times` (label values paired with the gauge
value), or a panic.  `used_times` is declared with the three variable
labels "ipport", "svname", "column", and the prometheus client's
`WithLabelValues` panics when given a number of values different from
the vector's label count — which is exactly what the two
`WithLabelValues(ipport, svname)` calls on the malformed-token paths
do, so those paths are modelled as a panic carrying the sets made
before it. -/
inductive ProbeOutcome where
  | panicked (sets : List (List String × ℚ)) : ProbeOutcome
  | finished (sets : List (List String × ℚ)) : ProbeOutcome
deriving DecidableEq, Repr

/-- Prepend an earlier `Set` call to a parse outcome. -/
def ProbeOutcome.consSet (s : List String × ℚ) : ProbeOutcome → ProbeOutcome
  | .panicked l => .panicked (s :: l)
  | .finished l => .finished (s :: l)

/-- The per-line parsing loop of `execConn` (testconn.go lines
37-64): a line not containing "query time" is skipped, as is a marker
line without exactly four space-separated fields; otherwise the third
field is split as a connection string and the fourth is the elapsed
time — with suffix "ms" its first "ms" is removed and the value is
recorded in seconds as `dr / 1000` (built in normalized form with
`mkRat`), otherwise the first "s" is removed and the value recorded
as is; a value that fails to parse
reaches `used_times.WithLabelValues(ipport, svname).Set(999)`, whose
two label values against the three-label vector panic. -/
def execConnLines : List String → ProbeOutcome
  | [] => .finished []
  | v :: rest =>
    if containsSub v.toList "query time".toList then
      let fs := splitChar ' ' v
      if fs.length = 4 then
        let p := splitConnStr (fs.getD 2 "")
        let ts := fs.getD 3 ""
        if "ms".toList.isSuffixOf ts.toList then
          match parseFloat (String.mk (replaceFirst "ms".toList [] ts.toList)) with
          | none => .panicked []
          | some dr =>
            (execConnLines rest).consSet
              ([p.1, p.2, "connectsucc"], mkRat dr.num (dr.den * 1000))
        else
          match parseFloat (String.mk (replaceFirst "s".toList [] ts.toList)) with
          | none => .panicked []
          | some dr => (execConnLines rest).consSet ([p.1, p.2, "connectsucc"], dr)
      else execConnLines rest
    else execConnLines rest

/-- The whole parse of one probe invocation's captured stderr:
`strings.Split(cc.String(), "\n")` followed by the line loop. -/
def execConnParse (output : String) : ProbeOutcome :=
  execConnLines (splitChar (Char.ofNat 10) output)

/-- Example handle for the sibling-abort counterexample: the SQL text
"good" returns one row with a float in column "a", anything else is
an execution error. -/
def dbFC1 : String → Except Unit QueryResult := fun s =>
  if s = "good" then .ok ⟨["a"], [[.vfloat 1]]⟩ else .error ()

/-- Example spec whose SQL execution fails. -/
def qC1bad : Query := ⟨"bad", "qb", ["a"], [], ""⟩

/-- Example spec whose SQL execution succeeds and emits one series. -/
def qC1good : Query := ⟨"good", "qg", ["a"], [], ""⟩

/-- C1 counterexample: with the failing spec declared first, the
succeeding sibling spec emits nothing for the target, although the
same sibling emits a series when the failing spec is absent — a
query-execution failure does abort the target's other custom
specs. -/
theorem customQueryError_aborts_siblings_cex :
    (scrapeQueriesLoop dbFC1 "d" "i" [qC1bad, qC1good]).1 = []
      ∧ (scrapeQueriesLoop dbFC1 "d" "i" [qC1good]).1 ≠ [] := by
  constructor
  · rfl
  · decide

/-- C1 (amended): a custom query spec whose SQL execution returns an
error yields zero series for that spec and ends the target's custom
query processing: the specs declared after it are never executed,
while the series of the specs declared before it (all of whose
executions succeeded) are kept. -/
theorem customQueryError_aborts_remaining_specs
    (dbF : String → Except Unit QueryResult) (database instName : String)
    (qs1 : List Query) (q : Query) (qs2 : List Query)
    (hq : dbF q.Sql = .error ())
    (h1 : ∀ q1 ∈ qs1, ∃ r, dbF q1.Sql = .ok r) :
    scrapeQueriesLoop dbF database instName (qs1 ++ q :: qs2)
      = scrapeQueriesLoop dbF database instName qs1 := by
  induction qs1 with
  | nil => simp [scrapeQueriesLoop, hq]
  | cons qh qt ih =>
    obtain ⟨r, hr⟩ := h1 qh (by simp)
    have ih2 := ih (fun q1 hq1 => h1 q1 (by simp [hq1]))
    simp [scrapeQueriesLoop, hr, ih2]

/-- C1 witness: the amended theorem applied to the concrete example
target. -/
theorem customQueryError_aborts_remaining_specs_witness :
    scrapeQueriesLoop dbFC1 "d" "i" [qC1good, qC1bad]
      = scrapeQueriesLoop dbFC1 "d" "i" [qC1good] :=
  customQueryError_aborts_remaining_specs dbFC1 "d" "i" [qC1good] qC1bad []
    (by rfl)
    (by intro q1 hq1
        simp only [List.mem_singleton] at hq1
        subst hq1
        exact ⟨⟨["a"], [[.vfloat 1]]⟩, rfl⟩)

/-- A declared label with no matching result column makes the label
loop fail, whatever the row values are. -/
theorem resolveLabels_missing (cols : List String) (vals : List Value) (l : String)
    (hmiss : findColIdx cols l = none) :
    ∀ ls : List String, l ∈ ls → ∀ r, resolveLabels cols vals ls ≠ .ok r := by
  intro ls
  induction ls with
  | nil => intro h; cases h
  | cons a as ih =>
    intro hmem r hok
    rcases List.mem_cons.mp hmem with rfl | htl
    · rw [resolveLabels, hmiss] at hok
      cases hok
    · rw [resolveLabels] at hok
      cases hca : findColIdx cols a with
      | none => rw [hca] at hok; cases hok
      | some i =>
        rw [hca] at hok
        cases hres : resolveLabels cols vals as with
        | error l2 => rw [hres] at hok; cases hok
        | ok rest => exact ih htl rest hres

/-- When the label loop can never succeed, a row emits no series. -/
theorem processMetricsRow_no_ok_labels
    (qname database instName : String) (labels cols : List String)
    (vals : List Value) (rownum : Nat)
    (h : ∀ r, resolveLabels cols vals labels ≠ .ok r) :
    ∀ ms, (processMetricsRow qname database instName labels cols vals rownum ms).1 = [] := by
  intro ms
  induction ms with
  | nil => rfl
  | cons m ms ih =>
    rw [processMetricsRow]
    split
    · exact ih
    · split
      · split
        · rfl
        · rename_i custom hres
          exact absurd hres (h custom)
      · exact ih

/-- When a declared label has no matching result column, no row of
the query emits any series. -/
theorem processRows_no_ok_labels
    (qname database instName : String) (metrics labels cols : List String) (l : String)
    (hl : l ∈ labels) (hmiss : findColIdx cols l = none) :
    ∀ (rows : List (List Value)) (rownum : Nat),
      (processRows qname database instName metrics labels cols rows rownum).1 = [] := by
  intro rows
  induction rows with
  | nil => intro rn; rfl
  | cons vals rest ih =>
    intro rn
    have h := resolveLabels_missing cols vals l hmiss labels hl
    have h1 := processMetricsRow_no_ok_labels qname database instName labels cols vals rn h metrics
    rw [processRows]
    split
    · exact h1
    · simp [h1, ih]

/-- C2: a custom query spec declaring a label column with no matching
result column emits zero series for this target — no partial output
from any row — and the loop moves on so that the target's remaining
custom specs contribute exactly what they would contribute without
this spec. -/
theorem missing_label_emits_no_series
    (dbF : String → Except Unit QueryResult) (database instName : String)
    (q : Query) (qs : List Query) (res : QueryResult) (l : String)
    (hok : dbF q.Sql = .ok res) (hl : l ∈ q.Labels)
    (hmiss : findColIdx res.cols l = none) :
    (processRows q.Name database instName q.Metrics q.Labels res.cols res.rows 1).1 = []
      ∧ (scrapeQueriesLoop dbF database instName (q :: qs)).1
          = (scrapeQueriesLoop dbF database instName qs).1 := by
  have h0 := processRows_no_ok_labels q.Name database instName q.Metrics q.Labels
    res.cols l hl hmiss res.rows 1
  refine ⟨h0, ?_⟩
  rw [scrapeQueriesLoop, hok]
  simp [h0]

/-- Example handle for the missing-label witness: two specs, the
first returning rows without the declared label column, the second
returning a row that emits. -/
def dbFC2 : String → Except Unit QueryResult := fun s =>
  if s = "sql1" then .ok ⟨["a"], [[.vfloat 7], [.vfloat 8]]⟩
  else .ok ⟨["b"], [[.vfloat 9]]⟩

/-- Example spec declaring a label column absent from its result. -/
def qC2 : Query := ⟨"sql1", "q1", ["a"], ["missing_col"], ""⟩

/-- Example sibling spec with no label columns. -/
def qC2b : Query := ⟨"sql2", "q2", ["b"], [], ""⟩

/-- Result set of the first example spec. -/
def resC2 : QueryResult := ⟨["a"], [[.vfloat 7], [.vfloat 8]]⟩

/-- C2 witness: the theorem applied to the concrete example target. -/
theorem missing_label_emits_no_series_witness :
    (processRows qC2.Name "d" "i" qC2.Metrics qC2.Labels resC2.cols resC2.rows 1).1 = []
      ∧ (scrapeQueriesLoop dbFC2 "d" "i" [qC2, qC2b]).1
          = (scrapeQueriesLoop dbFC2 "d" "i" [qC2b]).1 :=
  missing_label_emits_no_series dbFC2 "d" "i" qC2 [qC2b] resC2 "missing_col"
    (by rfl) (by simp [qC2]) (by rfl)

/-- Example target for the metric-skip witness: one spec declaring
metric columns "a" and "missing_metric" and two label columns, whose
query returns one row with column "a" holding 7 and both label
columns present. -/
def connC3 : Config :=
  ⟨"u/p@h:1521/svc", "d", "i",
    [⟨"sql", "q", ["a", "missing_metric"], ["l1", "l2"], ""⟩],
    some (fun _ => .ok ⟨["a", "l1", "l2"], [[.vfloat 7, .vstr "x", .vstr "y"]]⟩)⟩

/-- C3: a declared metric column with no matching result column is
skipped for the row without affecting the row's other metrics — the
row result is the same as if that metric had not been declared; in
particular, the spec with metric columns "a" and "missing_metric",
both label columns present, and one row with column "a" holding 7
emits exactly one series, for metric "a" with value 7. -/
theorem missing_metric_skipped_row_local
    (qname database instName m : String) (labels cols : List String)
    (vals : List Value) (rownum : Nat) (ms1 ms2 : List String)
    (hmiss : findColIdx cols m = none) :
    processMetricsRow qname database instName labels cols vals rownum (ms1 ++ m :: ms2)
        = processMetricsRow qname database instName labels cols vals rownum (ms1 ++ ms2)
      ∧ scrapeCustomQueries connC3
        = ([⟨"q", [("database", "d"), ("dbinstance", "i"), ("metric", "a"),
              ("rownum", "1"), ("l1", "x"), ("l2", "y")], 7⟩], []) := by
  constructor
  · induction ms1 with
    | nil => rw [List.nil_append, List.nil_append, processMetricsRow, hmiss]
    | cons a as ih =>
      rw [List.cons_append, List.cons_append, processMetricsRow, processMetricsRow]
      split
      · exact ih
      · split
        · split
          · rfl
          · rw [ih]
        · exact ih
  · rfl

/-- C3 witness: the skip equation at the example target's row, with
the concrete series emission. -/
theorem missing_metric_skipped_row_local_witness :
    processMetricsRow "q" "d" "i" ["l1", "l2"] ["a", "l1", "l2"]
        [Value.vfloat 7, Value.vstr "x", Value.vstr "y"] 1 (["a"] ++ "missing_metric" :: [])
      = processMetricsRow "q" "d" "i" ["l1", "l2"] ["a", "l1", "l2"]
        [Value.vfloat 7, Value.vstr "x", Value.vstr "y"] 1 (["a"] ++ [])
      ∧ scrapeCustomQueries connC3
        = ([⟨"q", [("database", "d"), ("dbinstance", "i"), ("metric", "a"),
              ("rownum", "1"), ("l1", "x"), ("l2", "y")], 7⟩], []) :=
  missing_metric_skipped_row_local "q" "d" "i" "missing_metric" ["l1", "l2"]
    ["a", "l1", "l2"] [Value.vfloat 7, Value.vstr "x", Value.vstr "y"] 1 ["a"] []
    (by rfl)

/-- C10: a matched metric column whose scanned cell is not a float64
emits no series for that (row, metric) pair and leaves no trace — the
row result (series, abort flag and warnings alike) is the same as if
the metric had not been declared, so nothing is reported for it. -/
theorem non_float_metric_cell_skipped
    (qname database instName m : String) (ms labels cols : List String)
    (vals : List Value) (rownum : Nat) (i : Nat)
    (hfind : findColIdx cols m = some i)
    (hnf : ∀ x : ℚ, vals.getD i .vnull ≠ .vfloat x) :
    processMetricsRow qname database instName labels cols vals rownum (m :: ms)
      = processMetricsRow qname database instName labels cols vals rownum ms := by
  simp only [processMetricsRow, hfind]


/-- C10 witness: a string-valued cell in a matched metric column is
skipped silently. -/
theorem non_float_metric_cell_skipped_witness :
    processMetricsRow "q" "d" "i" [] ["a"] [Value.vstr "oops"] 1 ["a"]
      = processMetricsRow "q" "d" "i" [] ["a"] [Value.vstr "oops"] 1 [] :=
  non_float_metric_cell_skipped "q" "d" "i" "a" [] [] ["a"] [Value.vstr "oops"] 1 0
    (by rfl) (fun x h => Value.noConfusion h)

/-- C4: evaluation of the label value coercion on each dynamic type:
a string cell is used verbatim; an integral float64 cell renders as
its plain integer text; a non-integral float64 cell renders in
normalized scientific notation; but a cell of any other dynamic type
renders as "0" (the `fmt.Sprintf` of the zero float64 left by the
failed type assertion), not as a generic string conversion of the
cell's own value. -/
theorem labelCoerce_eval :
    labelCoerce (.vstr "abc") = "abc"
      ∧ labelCoerce (.vfloat 5) = "5"
      ∧ labelCoerce (.vfloat (mkRat 21 4)) = "5.25e+00"
      ∧ labelCoerce (.vint 7) = "0"
      ∧ labelCoerce .vnull = "0" := by
  refine ⟨rfl, by decide, by decide, rfl, rfl⟩

/-- Example exporter state holding a nonempty per-phase timing vector
and nonempty dynamic families, used to exhibit what the reset
clears. -/
def exC5 : Exporter :=
  { duration := 2
    error := 1
    totalScrapes := 7
    scrapeErrors := [("sessions", 3)]
    session := [(["d", "i", "USER", "ACTIVE"], 4)]
    sysstat := []
    waitclass := []
    sysmetric := []
    interconnect := []
    uptime := []
    up := [(["d", "i"], 1)]
    tablespace := []
    recovery := []
    redo := []
    cache := []
    alertlog := []
    alertdate := []
    services := []
    parameter := []
    asmspace := []
    tablerows := []
    tablebytes := []
    indexbytes := []
    lobbytes := []
    custom := [("q", [(["d", "i", "a", "1"], 5)])]
    used_times := [(["h:1521", "svc", "connect"], 12)] }

/-- C5 counterexample: the reset run at the start of the connect
phase does clear the per-phase timing measurements — `used_times` is
the first vector it resets — so the claim that the timing
measurements survive the reset is false. -/
theorem reset_clears_used_times_cex :
    exC5.used_times ≠ [] ∧ (resetAllMetrics exC5).used_times = [] := by
  exact ⟨by decide, rfl⟩

/-- C5 (amended): the per-scrape reset clears every per-scrape series
— the built-in families, the custom families and also the per-phase
timing vector `used_times` — while preserving the process-lifetime
total scrape count, the last-scrape error flag, the last-scrape
duration and the per-collector error counters. -/
theorem resetAllMetrics_frame (e : Exporter) :
    (resetAllMetrics e).totalScrapes = e.totalScrapes
      ∧ (resetAllMetrics e).error = e.error
      ∧ (resetAllMetrics e).duration = e.duration
      ∧ (resetAllMetrics e).scrapeErrors = e.scrapeErrors
      ∧ (resetAllMetrics e).used_times = []
      ∧ (resetAllMetrics e).up = []
      ∧ (resetAllMetrics e).session = []
      ∧ (resetAllMetrics e).sysstat = []
      ∧ (resetAllMetrics e).waitclass = []
      ∧ (resetAllMetrics e).sysmetric = []
      ∧ (resetAllMetrics e).interconnect = []
      ∧ (resetAllMetrics e).tablespace = []
      ∧ (resetAllMetrics e).recovery = []
      ∧ (resetAllMetrics e).redo = []
      ∧ (resetAllMetrics e).cache = []
      ∧ (resetAllMetrics e).uptime = []
      ∧ (resetAllMetrics e).alertlog = []
      ∧ (resetAllMetrics e).alertdate = []
      ∧ (resetAllMetrics e).services = []
      ∧ (resetAllMetrics e).parameter = []
      ∧ (resetAllMetrics e).asmspace = []
      ∧ (resetAllMetrics e).tablerows = []
      ∧ (resetAllMetrics e).tablebytes = []
      ∧ (resetAllMetrics e).indexbytes = []
      ∧ (resetAllMetrics e).lobbytes = []
      ∧ (resetAllMetrics e).custom = e.custom.map (fun p => (p.1, ([] : GaugeVec))) :=
  ⟨rfl, rfl, rfl, rfl, rfl, rfl, rfl, rfl, rfl, rfl, rfl, rfl, rfl, rfl, rfl,
   rfl, rfl, rfl, rfl, rfl, rfl, rfl, rfl, rfl, rfl, rfl⟩

/-- Example parser that rejects every input, modelling a YAML parse
error. -/
def parseC6fail : String → Option (List Config) := fun _ => none

/-- Example previously active configuration. -/
def cfgC6 : List Config := [⟨"u/p@h:1521/svc", "d", "i", [], none⟩]

/-- C6: evaluation of `loadConfig` at its failing inputs — an
unreadable configuration source and an unparsable one.  In both
cases the function reaches `log.Fatalf`, which exits the process, so
the process is terminated and the `return false` below the call never
runs: no live process retains the previous configuration. -/
theorem loadConfig_failure_terminates :
    loadConfig cfgC6 none parseC6fail = .terminated
      ∧ loadConfig cfgC6 (some "not valid yaml: [") parseC6fail = .terminated :=
  ⟨rfl, rfl⟩

/-- C7: the runtime timeout control — get returns the stored timeout;
set rejects any integer outside the open interval (1, 15) without
changing the stored value, and accepts any integer strictly inside
it, which becomes the stored timeout. -/
theorem setTimeout_spec (cur t : Int) :
    getTimeout cur = cur
      ∧ (t ≤ 1 ∨ 15 ≤ t → setTimeout cur t = (cur, false))
      ∧ (1 < t → t < 15 → setTimeout cur t = (t, true)) := by
  refine ⟨rfl, ?_, ?_⟩
  · intro h
    rw [setTimeout, if_pos (h.elim Or.inr Or.inl)]
  · intro h1 h2
    rw [setTimeout, if_neg (by omega)]

/-- C7 witness: the stored timeout 5 stays on the rejected inputs 20
and 1, and 10 is accepted. -/
theorem setTimeout_spec_witness :
    getTimeout 5 = 5 ∧ setTimeout 5 20 = (5, false) ∧ setTimeout 5 1 = (5, false)
      ∧ setTimeout 5 10 = (10, true) :=
  ⟨(setTimeout_spec 5 20).1,
   (setTimeout_spec 5 20).2.1 (Or.inr (by norm_num)),
   (setTimeout_spec 5 1).2.1 (Or.inl (by norm_num)),
   (setTimeout_spec 5 10).2.2 (by norm_num) (by norm_num)⟩

/-- C8: evaluation of the probe-output parse.  A line lacking the
"query time" marker is ignored while a well-formed marker line
records its elapsed time, but an output whose first marker line
carries a malformed elapsed-time token panics — the sentinel call
passes two label values to the three-label `used_times` vector — so
nothing is recorded for that target and the remaining lines
(including a well-formed one) are never parsed, instead of the
claimed record-999-and-continue behaviour. -/
theorem execConn_malformed_token_panics :
    execConnParse "noise line\nquery time u@h:1521/svc 5ms"
        = .finished [(["h:1521", "svc", "connectsucc"], mkRat 1 200)]
      ∧ execConnParse "query time u@h:1521/svc xyms\nquery time u@h:1521/svc 5ms"
        = .panicked [] := by
  exact ⟨by decide, by decide⟩

/-- C9 counterexample: a target configured with a non-empty display
database but an empty display instance has its configured database
name overwritten by the discovered one — the configured non-empty
value does not survive the connect. -/
theorem connect_discovery_overwrites_cex :
    (connectDiscover "cfgdb" "" "discdb" "discinst").1 ≠ "cfgdb" := by
  decide

/-- C9 (amended): the post-connect discovery leaves both display
fields unchanged only when both are configured non-empty; when at
least one of them is empty, both are replaced together by the
discovered database and instance names. -/
theorem connect_discovery_pairwise (database instName dbname inname : String) :
    (database.length ≠ 0 → instName.length ≠ 0 →
        connectDiscover database instName dbname inname = (database, instName))
      ∧ (database.length = 0 ∨ instName.length = 0 →
        connectDiscover database instName dbname inname = (dbname, inname)) := by
  constructor
  · intro h1 h2
    rw [connectDiscover, if_neg (by tauto)]
  · intro h
    rw [connectDiscover, if_pos h]

/-- C9 witness: both display fields configured survive; with an empty
instance both fields are replaced by the discovered names. -/
theorem connect_discovery_pairwise_witness :
    connectDiscover "cfgdb" "cfginst" "discdb" "discinst" = ("cfgdb", "cfginst")
      ∧ connectDiscover "cfgdb" "" "discdb" "discinst" = ("discdb", "discinst") :=
  ⟨(connect_discovery_pairwise "cfgdb" "cfginst" "discdb" "discinst").1
      (by decide) (by decide),
   (connect_discovery_pairwise "cfgdb" "" "discdb" "discinst").2 (Or.inr rfl)⟩

end OracleExporter
